import Mathlib

/-
Verification of kernelmethods/sampling.py: a shallow embedding of the
kernel-bucket population algorithm, the bucket factory, the ideal-kernel
function and the pairwise-similarity engine, together with theorems that
settle the specification claims C1..C10.

External collaborators of sampling.py that live in the same package but are
not part of the analysed source (kernelmethods.base, kernelmethods.utils,
kernelmethods.config) are modelled from the specification; each such
definition carries a doc comment starting with "Modelled from the spec:".
Python exceptions are modelled with an Except monad: an Except.error result
means the Python call raised before returning, leaving the caller's bucket
object exactly as it was (in sampling.py every raise in
add_parametrized_kernels happens before any append to self).
-/

/-- Modelled from the spec: the argument passed as a kernel-function type to
add_parametrized_kernels.  The five recognized kernel-function classes of the
kernel-function polymorphic family (kernelmethods.numeric_kernels) are listed
as constructors; PlainType stands for any other Python type object (such as
float) that is not derived from BaseKernelFunction, and NonType stands for a
Python value that is not a type object at all. -/
inductive KFunc where
  | LinearKernel
  | PolyKernel
  | GaussianKernel
  | LaplacianKernel
  | SigmoidKernel
  | PlainType (typename : String)
  | NonType (reprname : String)
deriving DecidableEq, Repr

/-- Modelled from the spec: the Python check isinstance(kernel_func, type). -/
def is_type (kf : KFunc) : Bool :=
  match kf with
  | KFunc.NonType _ => false
  | _ => true

/-- Modelled from the spec: the Python check
issubclass(kernel_func, BaseKernelFunction).  The five numeric kernel classes
belong to the kernel-function polymorphic family; a plain type does not. -/
def issubclass_BaseKernelFunction (kf : KFunc) : Bool :=
  match kf with
  | KFunc.PlainType _ => false
  | KFunc.NonType _ => false
  | _ => true

/-- Printable name of a kernel-function argument, used in error messages
(the Python message interpolates kernel_func into the text). -/
def KFunc.pyname (kf : KFunc) : String :=
  match kf with
  | KFunc.LinearKernel => "LinearKernel"
  | KFunc.PolyKernel => "PolyKernel"
  | KFunc.GaussianKernel => "GaussianKernel"
  | KFunc.LaplacianKernel => "LaplacianKernel"
  | KFunc.SigmoidKernel => "SigmoidKernel"
  | KFunc.PlainType typename => typename
  | KFunc.NonType reprname => reprname

/-- The values argument of add_parametrized_kernels as a Python caller can
supply it: None, a single scalar, a bare string, or a proper iterable of
numeric parameter values. -/
inductive PyValues where
  | NoneV
  | Scalar (v : Int)
  | Str (s : String)
  | ListV (vs : List Int)
deriving DecidableEq, Repr

/-- Elements obtained by iterating over the values argument (only a proper
iterable is ever iterated in add_parametrized_kernels). -/
def PyValues.toIntList (values : PyValues) : List Int :=
  match values with
  | PyValues.ListV vs => vs
  | _ => []

/-- Modelled from the spec: kernelmethods.utils.is_iterable_but_not_str,
which accepts a proper multi-element iterable only: a single scalar or a bare
string does not qualify, and at least min_length values must be present. -/
def is_iterable_but_not_str (values : PyValues) (min_length : Nat) : Bool :=
  match values with
  | PyValues.ListV vs => decide (min_length ≤ vs.length)
  | _ => false

/-- The Python exception taxonomy used by sampling.py:
KernelMethodsException is the domain exception of the package (distinct from
the built-in TypeError), ValueError and KeyError are the Python built-ins
(KeyError is a LookupError). -/
inductive PyError where
  | kernelMethodsException (msg : String)
  | typeError (msg : String)
  | valueError (msg : String)
  | keyError (key : String)
deriving DecidableEq, Repr

/-- One entry of the bucket: a KernelMatrix wrapping a kernel-function
instance.  The external KernelMatrix is opaque; what identifies an entry is
the kernel-function class it was built from, the swept parameter and value
(absent for the linear seed, which is constructed with no parameters), and
the normalized flag it was wrapped with. -/
structure KMEntry where
  kfunc : KFunc
  param : Option String
  value : Option Int
  normalized : Bool
deriving DecidableEq, Repr

/-- One warning emitted by the warn-and-skip policy of
add_parametrized_kernels; the Python message names the kernel type, the
parameter and the value, so the warning is modelled by that triple. -/
structure KMWarning where
  kernel_func : KFunc
  param : String
  value : Int
deriving DecidableEq, Repr

/-- The KernelBucket state: its name, the ordered list of kernel-matrix
entries (the underlying KernelSet), and the two configuration flags fixed at
construction. -/
structure Bucket where
  name : String
  km_list : List KMEntry
  norm_kernels : Bool
  skip_input_checks : Bool
deriving DecidableEq, Repr

/-- Error message of the kernel-function type validation in
add_parametrized_kernels (sampling.py lines 162-164). -/
def invalid_kernel_func_msg (kf : KFunc) : String :=
  "Input " ++ kf.pyname ++ " is not a valid kernel func!" ++
    " Must be derived from BaseKernelFunction"

/-- Error message of the values validation in add_parametrized_kernels
(sampling.py line 171). -/
def iter_values_msg : String :=
  "values must be an iterable set of param values (n>=1)"

/-- The entry appended for one successfully constructed parametrized kernel:
KernelMatrix(kernel_func(param=val, skip_input_checks=...), normalized=...). -/
def entry_of (kernel_func : KFunc) (param : String) (norm : Bool) (v : Int) :
    KMEntry :=
  { kfunc := kernel_func, param := some param, value := some v,
    normalized := norm }

/-- The warning recorded for one skipped value. -/
def warning_of (kernel_func : KFunc) (param : String) (v : Int) : KMWarning :=
  { kernel_func := kernel_func, param := param, value := v }

/-- One iteration of the for-loop of add_parametrized_kernels (sampling.py
lines 173-181): try to construct the kernel function for this value and wrap
it into a KernelMatrix; on success append it, on any exception emit one
warning and skip the value.  Whether the construction raises is decided by
the failure oracle fails, which abstracts the external kernel-function and
KernelMatrix constructors. -/
def apk_step (fails : KFunc → String → Int → Bool) (kernel_func : KFunc)
    (param : String) (st : Bucket × List KMWarning) (val : Int) :
    Bucket × List KMWarning :=
  if fails kernel_func param val then
    (st.1, st.2 ++ [warning_of kernel_func param val])
  else
    ({ st.1 with
        km_list := st.1.km_list ++
          [entry_of kernel_func param st.1.norm_kernels val] },
     st.2)

/-- KernelBucket.add_parametrized_kernels (sampling.py lines 143-181):
validate that kernel_func is a type derived from BaseKernelFunction (domain
exception otherwise), treat values None as a silent no-op, validate that
values is a proper iterable of at least one element (ValueError otherwise),
then run the warn-and-skip loop over the values.  The returned list collects
the warnings emitted by the loop. -/
def add_parametrized_kernels (fails : KFunc → String → Int → Bool)
    (self : Bucket) (kernel_func : KFunc) (param : String)
    (values : PyValues) : Except PyError (Bucket × List KMWarning) :=
  if (!(is_type kernel_func)) || (!(issubclass_BaseKernelFunction kernel_func)) then
    Except.error (PyError.kernelMethodsException (invalid_kernel_func_msg kernel_func))
  else if values = PyValues.NoneV then
    Except.ok (self, [])
  else if !(is_iterable_but_not_str values 1) then
    Except.error (PyError.valueError iter_values_msg)
  else
    Except.ok (values.toIntList.foldl (apk_step fails kernel_func param) (self, []))

/-- The seed entry of every bucket:
KernelMatrix(LinearKernel(), normalized=normalize_kernels), added first by
the constructor (sampling.py line 131). -/
def linear_seed_entry (normalize_kernels : Bool) : KMEntry :=
  { kfunc := KFunc.LinearKernel, param := Option.none, value := Option.none,
    normalized := normalize_kernels }

/-- KernelBucket constructor (sampling.py lines 70-140): seed the collection
with exactly one linear-kernel matrix and then run the parametrized
expansion for the five kernel families in the fixed source order; an
exception raised by any expansion propagates out of the constructor.  The
warnings of the five expansions are collected in order. -/
def KernelBucket.init (fails : KFunc → String → Int → Bool)
    (poly_degree_values rbf_sigma_values laplace_gamma_values
      sigmoid_gamma_values sigmoid_offset_values : PyValues)
    (name : String) (normalize_kernels skip_input_checks : Bool) :
    Except PyError (Bucket × List KMWarning) :=
  match add_parametrized_kernels fails
      { name := name, km_list := [linear_seed_entry normalize_kernels],
        norm_kernels := normalize_kernels,
        skip_input_checks := skip_input_checks }
      KFunc.PolyKernel "degree" poly_degree_values with
  | Except.error e => Except.error e
  | Except.ok (b1, w1) =>
  match add_parametrized_kernels fails b1 KFunc.GaussianKernel "sigma"
      rbf_sigma_values with
  | Except.error e => Except.error e
  | Except.ok (b2, w2) =>
  match add_parametrized_kernels fails b2 KFunc.LaplacianKernel "gamma"
      laplace_gamma_values with
  | Except.error e => Except.error e
  | Except.ok (b3, w3) =>
  match add_parametrized_kernels fails b3 KFunc.SigmoidKernel "gamma"
      sigmoid_gamma_values with
  | Except.error e => Except.error e
  | Except.ok (b4, w4) =>
  match add_parametrized_kernels fails b4 KFunc.SigmoidKernel "offset"
      sigmoid_offset_values with
  | Except.error e => Except.error e
  | Except.ok (b5, w5) =>
    Except.ok (b5, w1 ++ w2 ++ w3 ++ w4 ++ w5)

/-- Modelled from the spec: Python str.lower restricted to the alphabet of
strategy names (strategy matching is case-insensitive). -/
def py_lower (s : String) : String :=
  String.mk (s.data.map Char.toLower)

/-- Modelled from the spec: kernelmethods.config.kernel_bucket_strategies,
the enumerable list of valid strategy names used in the error message. -/
def kernel_bucket_strategies : List String :=
  ["exhaustive", "light", "linear_only"]

/-- Error message for an unrecognized strategy (sampling.py lines 246-247). -/
def invalid_strategy_msg : String :=
  "Invalid choice of strategy - must be one of " ++
    String.intercalate ", " kernel_bucket_strategies

/-- Modelled from the spec: the wide predefined degree grid of the
exhaustive preset (kernelmethods.config); the concrete numbers are external
configuration not fixed by the spec, and no claim depends on them. -/
def default_degree_values_poly_kernel : PyValues := PyValues.ListV [2, 3, 4]

/-- Modelled from the spec: wide predefined sigma grid, as above. -/
def default_sigma_values_gaussian_kernel : PyValues := PyValues.ListV [1, 2, 4]

/-- Modelled from the spec: wide predefined gamma grid, as above. -/
def default_gamma_values_laplacian_kernel : PyValues := PyValues.ListV [1, 2, 4]

/-- Modelled from the spec: wide predefined gamma grid, as above. -/
def default_gamma_values_sigmoid_kernel : PyValues := PyValues.ListV [1, 2, 4]

/-- Modelled from the spec: wide predefined offset grid, as above. -/
def default_offset_values_sigmoid_kernel : PyValues := PyValues.ListV [0, 1]

/-- Modelled from the spec: narrow degree grid of the light preset. -/
def light_degree_values_poly_kernel : PyValues := PyValues.ListV [2, 3]

/-- Modelled from the spec: narrow sigma grid of the light preset. -/
def light_sigma_values_gaussian_kernel : PyValues := PyValues.ListV [1, 2]

/-- Modelled from the spec: narrow gamma grid of the light preset. -/
def light_gamma_values_laplacian_kernel : PyValues := PyValues.ListV [1, 2]

/-- Modelled from the spec: narrow gamma grid of the light preset. -/
def light_gamma_values_sigmoid_kernel : PyValues := PyValues.ListV [1, 2]

/-- Modelled from the spec: narrow offset grid of the light preset. -/
def light_offset_values_sigmoid_kernel : PyValues := PyValues.ListV [0, 1]

/-- make_kernel_bucket (sampling.py lines 184-247): lowercase the strategy
name and dispatch to one of the three presets; an unrecognized name raises a
ValueError enumerating the valid choices.  The pass-through branch for an
argument that is already a bucket concerns a non-string argument and is
outside the string-typed strategy modelled here.  The linear_only preset
passes all five value iterables as None; its bucket name is the literal
"KBucketLight" that the source uses on that branch. -/
def make_kernel_bucket (fails : KFunc → String → Int → Bool)
    (strategy : String) (normalize_kernels skip_input_checks : Bool) :
    Except PyError (Bucket × List KMWarning) :=
  if py_lower strategy = "exhaustive" then
    KernelBucket.init fails default_degree_values_poly_kernel
      default_sigma_values_gaussian_kernel
      default_gamma_values_laplacian_kernel
      default_gamma_values_sigmoid_kernel
      default_offset_values_sigmoid_kernel
      "KBucketExhaustive" normalize_kernels skip_input_checks
  else if py_lower strategy = "light" then
    KernelBucket.init fails light_degree_values_poly_kernel
      light_sigma_values_gaussian_kernel
      light_gamma_values_laplacian_kernel
      light_gamma_values_sigmoid_kernel
      light_offset_values_sigmoid_kernel
      "KBucketLight" normalize_kernels skip_input_checks
  else if py_lower strategy = "linear_only" then
    KernelBucket.init fails PyValues.NoneV PyValues.NoneV PyValues.NoneV
      PyValues.NoneV PyValues.NoneV
      "KBucketLight" normalize_kernels skip_input_checks
  else
    Except.error (PyError.valueError invalid_strategy_msg)

/-- ideal_kernel (sampling.py lines 250-268): reshape the targets into a
column vector and return the outer product with its transpose, so entry
(i, j) is targets[i] * targets[j]. -/
def ideal_kernel (targets : List Int) : List (List Int) :=
  targets.map (fun ti => targets.map (fun tj => ti * tj))

/-- A bucket entry as the pairwise-similarity engine sees it: an object with
a .full accessor returning the dense kernel matrix (the external
KernelMatrix contract).  The matrix type is kept abstract. -/
structure KMFull (mu : Type) where
  full : mu
deriving DecidableEq, Repr

instance (mu : Type) [Inhabited mu] : Inhabited (KMFull mu) :=
  ⟨{ full := default }⟩

/-- The metric_func dictionary of pairwise_similarity (sampling.py lines
314-315): it maps the name corr to correlation_km and the name align to the
centered-alignment metric with zero division guarded to 0.0.  Both metric
functions are external numeric routines (scipy pearsonr and
kernelmethods.operations.alignment_centered) and are taken as parameters;
looking up any other name raises a KeyError. -/
def metric_func_dict {mu beta : Type} (corr align : mu → mu → beta)
    (metric : String) : Option (mu → mu → beta) :=
  if metric = "corr" then some corr
  else if metric = "align" then some align
  else Option.none

/-- The n-by-n numpy array np.full((n, n), np.nan) that pairwise_similarity
allocates (sampling.py line 319), modelled as a map from index pairs to an
optional value; the nan sentinel of a never-written cell is Option.none. -/
def np_full_nan (beta : Type) : Nat → Nat → Option beta :=
  fun _ _ => Option.none

/-- A single numpy cell assignment pairwise_metric[i, j] = v. -/
def pw_set {beta : Type} (m : Nat → Nat → Option beta) (i j : Nat)
    (v : beta) : Nat → Nat → Option beta :=
  fun a b => if a = i ∧ b = j then some v else m a b

/-- One metric evaluation estimator(k_bucket[i].full, k_bucket[j].full)
(sampling.py lines 323-324). -/
def pw_eval {mu beta : Type} [Inhabited mu] (estimator : mu → mu → beta)
    (k_bucket : List (KMFull mu)) (i j : Nat) : beta :=
  estimator (k_bucket.getD i default).full (k_bucket.getD j default).full

/-- Body of the inner loop of pairwise_similarity (sampling.py lines
322-324): store the metric value at (idx_one, idx_two) and record the
evaluation in the trace of direct metric evaluations. -/
def pw_inner_step {mu beta : Type} [Inhabited mu]
    (estimator : mu → mu → beta) (k_bucket : List (KMFull mu))
    (idx_one : Nat) (st : (Nat → Nat → Option beta) × List (Nat × Nat))
    (idx_two : Nat) : (Nat → Nat → Option beta) × List (Nat × Nat) :=
  (pw_set st.1 idx_one idx_two (pw_eval estimator k_bucket idx_one idx_two),
   st.2 ++ [(idx_one, idx_two)])

/-- One iteration of the outer loop: run idx_two over
range(idx_one, num_kernels). -/
def pw_outer_step {mu beta : Type} [Inhabited mu]
    (estimator : mu → mu → beta) (k_bucket : List (KMFull mu))
    (st : (Nat → Nat → Option beta) × List (Nat × Nat)) (idx_one : Nat) :
    (Nat → Nat → Option beta) × List (Nat × Nat) :=
  (List.range' idx_one (k_bucket.length - idx_one)).foldl
    (pw_inner_step estimator k_bucket idx_one) st

/-- The double loop of pairwise_similarity (sampling.py lines 320-324),
started on the nan-filled array with an empty evaluation trace. -/
def pw_loop {mu beta : Type} [Inhabited mu] (estimator : mu → mu → beta)
    (k_bucket : List (KMFull mu)) :
    (Nat → Nat → Option beta) × List (Nat × Nat) :=
  (List.range k_bucket.length).foldl (pw_outer_step estimator k_bucket)
    (np_full_nan beta, [])

/-- The symmetrization step (sampling.py lines 329-330):
pairwise_metric[np.tril_indices(n)] = pairwise_metric.T[np.tril_indices(n)],
which overwrites every cell (i, j) with j <= i (the diagonal included, where
the copy is a no-op) with the transposed value taken from the matrix as it
stood before the assignment. -/
def mirror_lower {beta : Type} (m : Nat → Nat → Option beta) :
    Nat → Nat → Option beta :=
  fun i j => if j ≤ i then m j i else m i j

/-- pairwise_similarity (sampling.py lines 292-331): look the metric up in
the metric_func dictionary (KeyError for an unrecognized name, raised before
the array is allocated and before any metric evaluation), run the
upper-triangle double loop, then mirror the upper triangle into the lower
one.  The second component is the trace of direct metric evaluations
performed by the call, in order; a call that raises performs none. -/
def pairwise_similarity {mu beta : Type} [Inhabited mu]
    (corr align : mu → mu → beta) (k_bucket : List (KMFull mu))
    (metric : String) :
    Except PyError (Nat → Nat → Option beta) × List (Nat × Nat) :=
  match metric_func_dict corr align metric with
  | Option.none => (Except.error (PyError.keyError metric), [])
  | Option.some estimator =>
      let st := pw_loop estimator k_bucket
      (Except.ok (mirror_lower st.1), st.2)

/-- The list of index pairs (i, j) with i <= j < n in the evaluation order
of the double loop, restricted to the first m rows. -/
def upper_pairs_aux (n m : Nat) : List (Nat × Nat) :=
  ((List.range m).map
    (fun i => (List.range' i (n - i)).map (fun j => (i, j)))).flatten

/-- The full list of upper-triangle index pairs (diagonal included) in
evaluation order. -/
def upper_pairs (n : Nat) : List (Nat × Nat) :=
  upper_pairs_aux n n

/- ------------------------------------------------------------------ -/
/- Concrete inputs used by the witness theorems                        -/
/- ------------------------------------------------------------------ -/

/-- A concrete failure oracle: constructing a kernel raises exactly when
the parameter value is 0. -/
def fails0 : KFunc → String → Int → Bool := fun _ _ v => decide (v = 0)

/-- A concrete bucket holding just the linear seed entry. -/
def bucket0 : Bucket :=
  { name := "KernelBucket", km_list := [linear_seed_entry true],
    norm_kernels := true, skip_input_checks := false }

/-- A concrete two-entry bucket of dense 2x2 matrices for the witnesses. -/
def pwbucket0 : List (KMFull (List (List Int))) :=
  [{ full := [[1, 0], [0, 1]] }, { full := [[2, 1], [1, 2]] }]

/-- A concrete, deliberately asymmetric stand-in for correlation_km. -/
def corr0 : List (List Int) → List (List Int) → Int :=
  fun k1 k2 => ((k1.headD []).headD 0) - 2 * ((k2.headD []).headD 0)

/-- A concrete stand-in for the centered-alignment metric. -/
def align0 : List (List Int) → List (List Int) → Int :=
  fun k1 k2 => ((k1.headD []).headD 0) * ((k2.headD []).headD 0)

/-- The matrix returned by pairwise_similarity on the witness bucket. -/
def M0 : Nat → Nat → Option Int := mirror_lower (pw_loop corr0 pwbucket0).1

/-- The evaluation trace of pairwise_similarity on the witness bucket. -/
def tr0 : List (Nat × Nat) := (pw_loop corr0 pwbucket0).2

/- ------------------------------------------------------------------ -/
/- Helper lemmas about the bucket population loop                      -/
/- ------------------------------------------------------------------ -/

/-- Splitting a list by a Bool predicate preserves its length. -/
theorem filter_length_split (p : Int → Bool) (l : List Int) :
    (l.filter p).length + (l.filter (fun v => !(p v))).length = l.length := by
  induction l with
  | nil => simp
  | cons a l ih =>
    by_cases h : p a = true <;> simp [List.filter_cons, h] <;> omega

/-- The warn-and-skip loop of add_parametrized_kernels appends exactly one
kernel-matrix entry per value whose construction succeeds and records
exactly one warning per value whose construction raises, in input order. -/
theorem apk_foldl_spec (fails : KFunc → String → Int → Bool)
    (kernel_func : KFunc) (param : String) (vs : List Int) :
    ∀ (b : Bucket) (w : List KMWarning),
      vs.foldl (apk_step fails kernel_func param) (b, w)
        = ({ b with km_list := (b.km_list
              ++ (vs.filter (fun v => !(fails kernel_func param v))).map
                   (entry_of kernel_func param b.norm_kernels)) },
           w ++ (vs.filter (fun v => fails kernel_func param v)).map
                  (warning_of kernel_func param)) := by
  induction vs with
  | nil => intro b w; simp
  | cons v vs ih =>
    intro b w
    rw [List.foldl_cons]
    by_cases h : fails kernel_func param v = true
    · rw [show apk_step fails kernel_func param (b, w) v
            = (b, w ++ [warning_of kernel_func param v]) from by
          simp [apk_step, h]]
      rw [ih]
      rw [List.filter_cons, List.filter_cons]
      simp [h]
    · rw [show apk_step fails kernel_func param (b, w) v
            = ({ b with km_list := b.km_list
                  ++ [entry_of kernel_func param b.norm_kernels v] }, w) from by
          simp [apk_step, h]]
      rw [ih]
      rw [List.filter_cons, List.filter_cons]
      simp [h]

/-- The kernel-function type validation branch: an argument that is not a
type derived from BaseKernelFunction makes add_parametrized_kernels raise
the domain exception, whatever the values argument is. -/
theorem add_invalid_spec (fails : KFunc → String → Int → Bool) (self : Bucket)
    (kernel_func : KFunc) (param : String) (values : PyValues)
    (h : is_type kernel_func = false ∨
      issubclass_BaseKernelFunction kernel_func = false) :
    add_parametrized_kernels fails self kernel_func param values
      = Except.error
          (PyError.kernelMethodsException (invalid_kernel_func_msg kernel_func)) := by
  rcases h with h | h <;> simp [add_parametrized_kernels, h]

/-- The None branch: with a valid kernel-function type, values None is a
silent no-op. -/
theorem add_none_spec (fails : KFunc → String → Int → Bool) (self : Bucket)
    (kernel_func : KFunc) (param : String)
    (h1 : is_type kernel_func = true)
    (h2 : issubclass_BaseKernelFunction kernel_func = true) :
    add_parametrized_kernels fails self kernel_func param PyValues.NoneV
      = Except.ok (self, []) := by
  simp [add_parametrized_kernels, h1, h2]

/-- The values validation branch: with a valid kernel-function type, a
non-None values argument that is not a proper iterable of at least one
element raises a ValueError. -/
theorem add_not_iterable_spec (fails : KFunc → String → Int → Bool)
    (self : Bucket) (kernel_func : KFunc) (param : String) (values : PyValues)
    (h1 : is_type kernel_func = true)
    (h2 : issubclass_BaseKernelFunction kernel_func = true)
    (h3 : values ≠ PyValues.NoneV)
    (h4 : is_iterable_but_not_str values 1 = false) :
    add_parametrized_kernels fails self kernel_func param values
      = Except.error (PyError.valueError iter_values_msg) := by
  simp [add_parametrized_kernels, h1, h2, h3, h4]

/-- The expansion branch: with a valid kernel-function type and a nonempty
list of values, add_parametrized_kernels returns the bucket extended by the
entries of the successful values and the warnings of the failing ones. -/
theorem add_list_spec (fails : KFunc → String → Int → Bool) (self : Bucket)
    (kernel_func : KFunc) (param : String) (vs : List Int)
    (h1 : is_type kernel_func = true)
    (h2 : issubclass_BaseKernelFunction kernel_func = true)
    (hlen : 1 ≤ vs.length) :
    add_parametrized_kernels fails self kernel_func param (PyValues.ListV vs)
      = Except.ok
          ({ self with km_list := (self.km_list
              ++ (vs.filter (fun v => !(fails kernel_func param v))).map
                   (entry_of kernel_func param self.norm_kernels)) },
           (vs.filter (fun v => fails kernel_func param v)).map
             (warning_of kernel_func param)) := by
  have hiter : is_iterable_but_not_str (PyValues.ListV vs) 1 = true := by
    simp [is_iterable_but_not_str, hlen]
  simp [add_parametrized_kernels, h1, h2, hiter, PyValues.toIntList,
    apk_foldl_spec]

/-- A call to add_parametrized_kernels that returns normally only ever
appends to the entry list: the previous entries stay, in place, as a
prefix. -/
theorem add_ok_extends (fails : KFunc → String → Int → Bool) (self : Bucket)
    (kernel_func : KFunc) (param : String) (values : PyValues) (b2 : Bucket)
    (ws : List KMWarning)
    (h : add_parametrized_kernels fails self kernel_func param values
      = Except.ok (b2, ws)) :
    ∃ t, b2.km_list = self.km_list ++ t := by
  unfold add_parametrized_kernels at h
  split at h
  · simp at h
  · split at h
    · have hx := Except.ok.inj h
      injection hx with hb hw
      exact ⟨[], by rw [← hb]; simp⟩
    · split at h
      · simp at h
      · rw [apk_foldl_spec] at h
        have hx := Except.ok.inj h
        injection hx with hb hw
        exact ⟨_, by rw [← hb]⟩


/- ------------------------------------------------------------------ -/
/- Claims C1, C4, C5, C6, C10                                          -/
/- ------------------------------------------------------------------ -/

/-- Claim C1: for every call to add_parametrized_kernels on a bucket with a
valid kernel-function type: values None appends exactly zero entries; a list
of k values returns normally (never aborts the bucket), appends exactly k
entries minus one per value whose construction raises, and each skipped
value emits exactly one warning naming the kernel type, parameter and
value. -/
theorem c1_add_parametrized_kernels_counts
    (fails : KFunc → String → Int → Bool) (b : Bucket) (kernel_func : KFunc)
    (param : String) (h1 : is_type kernel_func = true)
    (h2 : issubclass_BaseKernelFunction kernel_func = true) :
    add_parametrized_kernels fails b kernel_func param PyValues.NoneV
        = Except.ok (b, []) ∧
    ∀ vs : List Int, 1 ≤ vs.length →
      add_parametrized_kernels fails b kernel_func param (PyValues.ListV vs)
          = Except.ok
              ({ b with km_list := (b.km_list
                  ++ (vs.filter (fun v => !(fails kernel_func param v))).map
                       (entry_of kernel_func param b.norm_kernels)) },
               (vs.filter (fun v => fails kernel_func param v)).map
                 (warning_of kernel_func param)) ∧
      (b.km_list
          ++ (vs.filter (fun v => !(fails kernel_func param v))).map
               (entry_of kernel_func param b.norm_kernels)).length
          + ((vs.filter (fun v => fails kernel_func param v)).map
               (warning_of kernel_func param)).length
        = b.km_list.length + vs.length := by
  refine ⟨add_none_spec fails b kernel_func param h1 h2, ?_⟩
  intro vs hlen
  refine ⟨add_list_spec fails b kernel_func param vs h1 h2 hlen, ?_⟩
  rw [List.length_append, List.length_map, List.length_map]
  have hsplit := filter_length_split (fun v => fails kernel_func param v) vs
  omega

/-- Witness for claim C1 at a concrete input: a Gaussian sweep over the two
values 0 and 2 with an oracle that fails exactly on 0. -/
theorem c1_witness :
    add_parametrized_kernels fails0 bucket0 KFunc.GaussianKernel "sigma"
        PyValues.NoneV = Except.ok (bucket0, []) ∧
    (add_parametrized_kernels fails0 bucket0 KFunc.GaussianKernel "sigma"
        (PyValues.ListV [0, 2])
        = Except.ok
            ({ bucket0 with km_list := (bucket0.km_list
                ++ (([0, 2] : List Int).filter
                      (fun v => !(fails0 KFunc.GaussianKernel "sigma" v))).map
                     (entry_of KFunc.GaussianKernel "sigma"
                       bucket0.norm_kernels)) },
             (([0, 2] : List Int).filter
                 (fun v => fails0 KFunc.GaussianKernel "sigma" v)).map
               (warning_of KFunc.GaussianKernel "sigma")) ∧
      (bucket0.km_list
          ++ (([0, 2] : List Int).filter
                (fun v => !(fails0 KFunc.GaussianKernel "sigma" v))).map
               (entry_of KFunc.GaussianKernel "sigma" bucket0.norm_kernels)).length
          + ((([0, 2] : List Int).filter
                (fun v => fails0 KFunc.GaussianKernel "sigma" v)).map
               (warning_of KFunc.GaussianKernel "sigma")).length
        = bucket0.km_list.length + ([0, 2] : List Int).length) :=
  ⟨(c1_add_parametrized_kernels_counts fails0 bucket0 KFunc.GaussianKernel
      "sigma" rfl rfl).1,
   (c1_add_parametrized_kernels_counts fails0 bucket0 KFunc.GaussianKernel
      "sigma" rfl rfl).2 [0, 2] (by decide)⟩

/-- Claim C4: for every KernelBucket construction that returns normally,
whatever the five parameter-value arguments are, the first entry of the
resulting collection is the linear-kernel matrix seeded by the
constructor. -/
theorem c4_first_entry_linear (fails : KFunc → String → Int → Bool)
    (pdv rsv lgv sgv sov : PyValues) (name : String) (nk sic : Bool)
    (b : Bucket) (ws : List KMWarning)
    (h : KernelBucket.init fails pdv rsv lgv sgv sov name nk sic
      = Except.ok (b, ws)) :
    b.km_list.head? = some (linear_seed_entry nk) := by
  unfold KernelBucket.init at h
  split at h
  · exact absurd h (by simp)
  · rename_i b1 w1 heq1
    split at h
    · exact absurd h (by simp)
    · rename_i b2 w2 heq2
      split at h
      · exact absurd h (by simp)
      · rename_i b3 w3 heq3
        split at h
        · exact absurd h (by simp)
        · rename_i b4 w4 heq4
          split at h
          · exact absurd h (by simp)
          · rename_i b5 w5 heq5
            have hx := Except.ok.inj h
            injection hx with hb hw
            obtain ⟨t1, ht1⟩ := add_ok_extends _ _ _ _ _ _ _ heq1
            obtain ⟨t2, ht2⟩ := add_ok_extends _ _ _ _ _ _ _ heq2
            obtain ⟨t3, ht3⟩ := add_ok_extends _ _ _ _ _ _ _ heq3
            obtain ⟨t4, ht4⟩ := add_ok_extends _ _ _ _ _ _ _ heq4
            obtain ⟨t5, ht5⟩ := add_ok_extends _ _ _ _ _ _ _ heq5
            rw [← hb]
            simp [ht5, ht4, ht3, ht2, ht1]

/-- Witness for claim C4 at a concrete input: a bucket built with all five
family iterables absent. -/
theorem c4_witness :
    KernelBucket.init fails0 PyValues.NoneV PyValues.NoneV PyValues.NoneV
        PyValues.NoneV PyValues.NoneV "KernelBucket" true false
      = Except.ok (bucket0, []) ∧
    bucket0.km_list.head? = some (linear_seed_entry true) :=
  ⟨rfl,
   c4_first_entry_linear fails0 PyValues.NoneV PyValues.NoneV PyValues.NoneV
     PyValues.NoneV PyValues.NoneV "KernelBucket" true false bucket0 [] rfl⟩

/-- Claim C5: for every bucket, a kernel_func argument that is not a type
derived from BaseKernelFunction makes add_parametrized_kernels fail with the
package domain exception, which is distinct from a generic TypeError, and
the call never returns an updated bucket, so the bucket contents are exactly
what they were (the exception is raised before any append). -/
theorem c5_invalid_kernel_func_domain_error
    (fails : KFunc → String → Int → Bool) (b : Bucket) (kernel_func : KFunc)
    (param : String) (values : PyValues)
    (h : is_type kernel_func = false ∨
      issubclass_BaseKernelFunction kernel_func = false) :
    add_parametrized_kernels fails b kernel_func param values
        = Except.error
            (PyError.kernelMethodsException (invalid_kernel_func_msg kernel_func)) ∧
    (∀ m, PyError.kernelMethodsException (invalid_kernel_func_msg kernel_func)
        ≠ PyError.typeError m) ∧
    (∀ b2 ws, add_parametrized_kernels fails b kernel_func param values
        ≠ Except.ok (b2, ws)) := by
  refine ⟨add_invalid_spec fails b kernel_func param values h, ?_, ?_⟩
  · intro m hc
    exact PyError.noConfusion hc
  · intro b2 ws hc
    rw [add_invalid_spec fails b kernel_func param values h] at hc
    exact Except.noConfusion hc

/-- Witness for claim C5 at a concrete input: the plain numeric class float
is a type, but not one derived from BaseKernelFunction. -/
theorem c5_witness :
    add_parametrized_kernels fails0 bucket0 (KFunc.PlainType "float") "degree"
        (PyValues.ListV [2])
      = Except.error
          (PyError.kernelMethodsException
            (invalid_kernel_func_msg (KFunc.PlainType "float"))) ∧
    PyError.kernelMethodsException (invalid_kernel_func_msg (KFunc.PlainType "float"))
      ≠ PyError.typeError "unsupported operand type" ∧
    add_parametrized_kernels fails0 bucket0 (KFunc.PlainType "float") "degree"
        (PyValues.ListV [2])
      ≠ Except.ok (bucket0, []) :=
  ⟨(c5_invalid_kernel_func_domain_error fails0 bucket0 (KFunc.PlainType "float")
      "degree" (PyValues.ListV [2]) (Or.inr rfl)).1,
   (c5_invalid_kernel_func_domain_error fails0 bucket0 (KFunc.PlainType "float")
      "degree" (PyValues.ListV [2]) (Or.inr rfl)).2.1 "unsupported operand type",
   (c5_invalid_kernel_func_domain_error fails0 bucket0 (KFunc.PlainType "float")
      "degree" (PyValues.ListV [2]) (Or.inr rfl)).2.2 bucket0 []⟩

/-- Claim C6: for every bucket and valid kernel-function type,
add_parametrized_kernels fails with a ValueError whenever the non-None
values argument is not a proper iterable of at least one parameter value: a
single scalar, a bare string, or an empty iterable; the error is raised
before the loop, so no entries are appended. -/
theorem c6_values_not_iterable_value_error
    (fails : KFunc → String → Int → Bool) (b : Bucket) (kernel_func : KFunc)
    (param : String) (h1 : is_type kernel_func = true)
    (h2 : issubclass_BaseKernelFunction kernel_func = true) :
    (∀ v : Int, add_parametrized_kernels fails b kernel_func param
        (PyValues.Scalar v) = Except.error (PyError.valueError iter_values_msg)) ∧
    (∀ s : String, add_parametrized_kernels fails b kernel_func param
        (PyValues.Str s) = Except.error (PyError.valueError iter_values_msg)) ∧
    add_parametrized_kernels fails b kernel_func param (PyValues.ListV [])
      = Except.error (PyError.valueError iter_values_msg) := by
  refine ⟨?_, ?_, ?_⟩
  · intro v
    exact add_not_iterable_spec fails b kernel_func param (PyValues.Scalar v)
      h1 h2 (fun hc => PyValues.noConfusion hc) rfl
  · intro s
    exact add_not_iterable_spec fails b kernel_func param (PyValues.Str s)
      h1 h2 (fun hc => PyValues.noConfusion hc) rfl
  · exact add_not_iterable_spec fails b kernel_func param (PyValues.ListV [])
      h1 h2 (fun hc => PyValues.noConfusion hc) rfl

/-- Witness for claim C6 at a concrete input: a scalar 3, the bare string
abc, and the empty list, swept for the polynomial degree. -/
theorem c6_witness :
    add_parametrized_kernels fails0 bucket0 KFunc.PolyKernel "degree"
        (PyValues.Scalar 3) = Except.error (PyError.valueError iter_values_msg) ∧
    add_parametrized_kernels fails0 bucket0 KFunc.PolyKernel "degree"
        (PyValues.Str "abc") = Except.error (PyError.valueError iter_values_msg) ∧
    add_parametrized_kernels fails0 bucket0 KFunc.PolyKernel "degree"
        (PyValues.ListV []) = Except.error (PyError.valueError iter_values_msg) :=
  ⟨(c6_values_not_iterable_value_error fails0 bucket0 KFunc.PolyKernel "degree"
      rfl rfl).1 3,
   (c6_values_not_iterable_value_error fails0 bucket0 KFunc.PolyKernel "degree"
      rfl rfl).2.1 "abc",
   (c6_values_not_iterable_value_error fails0 bucket0 KFunc.PolyKernel "degree"
      rfl rfl).2.2⟩

/-- Claim C10: the kernel-function type validation of
add_parametrized_kernels is performed before the None check on values: even
with values None an invalid kernel_func raises the domain exception, and the
silent no-op for None applies only when the kernel-function type is
valid. -/
theorem c10_validation_precedes_none_check
    (fails : KFunc → String → Int → Bool) (b : Bucket) (param : String)
    (kernel_func : KFunc)
    (h : is_type kernel_func = false ∨
      issubclass_BaseKernelFunction kernel_func = false) :
    add_parametrized_kernels fails b kernel_func param PyValues.NoneV
        = Except.error
            (PyError.kernelMethodsException (invalid_kernel_func_msg kernel_func)) ∧
    ∀ kf2, is_type kf2 = true → issubclass_BaseKernelFunction kf2 = true →
      add_parametrized_kernels fails b kf2 param PyValues.NoneV
        = Except.ok (b, []) :=
  ⟨add_invalid_spec fails b kernel_func param PyValues.NoneV h,
   fun kf2 h1 h2 => add_none_spec fails b kf2 param h1 h2⟩

/-- Witness for claim C10 at a concrete input: a value that is not a type at
all, with values None; and the Laplacian kernel type as the valid
comparison. -/
theorem c10_witness :
    add_parametrized_kernels fails0 bucket0 (KFunc.NonType "3.5") "gamma"
        PyValues.NoneV
      = Except.error
          (PyError.kernelMethodsException
            (invalid_kernel_func_msg (KFunc.NonType "3.5"))) ∧
    add_parametrized_kernels fails0 bucket0 KFunc.LaplacianKernel "gamma"
        PyValues.NoneV = Except.ok (bucket0, []) :=
  ⟨(c10_validation_precedes_none_check fails0 bucket0 "gamma"
      (KFunc.NonType "3.5") (Or.inl rfl)).1,
   (c10_validation_precedes_none_check fails0 bucket0 "gamma"
      (KFunc.NonType "3.5") (Or.inl rfl)).2 KFunc.LaplacianKernel rfl rfl⟩

/- ------------------------------------------------------------------ -/
/- Helper lemmas about the pairwise-similarity double loop             -/
/- ------------------------------------------------------------------ -/

/-- After the inner loop over idx_two in range(j0, j0 + len), the array
holds the metric value at every cell (i, b) with j0 <= b < j0 + len and is
otherwise unchanged. -/
theorem pw_inner_mat {mu beta : Type} [Inhabited mu] (est : mu → mu → beta)
    (k_bucket : List (KMFull mu)) (i : Nat) :
    ∀ (len j0 : Nat) (st : (Nat → Nat → Option beta) × List (Nat × Nat))
      (a b : Nat),
      (((List.range' j0 len).foldl (pw_inner_step est k_bucket i) st).1) a b
        = if a = i ∧ j0 ≤ b ∧ b < j0 + len
          then some (pw_eval est k_bucket i b)
          else st.1 a b := by
  intro len
  induction len with
  | zero =>
    intro j0 st a b
    rw [show List.range' j0 0 = [] from rfl, List.foldl_nil,
      if_neg (by rintro ⟨h1, h2, h3⟩; omega)]
  | succ len ih =>
    intro j0 st a b
    rw [List.range'_succ, List.foldl_cons, ih]
    simp only [pw_inner_step, pw_set]
    by_cases hai : a = i
    · by_cases hbj : b = j0
      · rw [if_neg (show ¬(a = i ∧ j0 + 1 ≤ b ∧ b < j0 + 1 + len) from
            by rintro ⟨h1, h2, h3⟩; omega),
          if_pos (show a = i ∧ b = j0 from ⟨hai, hbj⟩),
          if_pos (show a = i ∧ j0 ≤ b ∧ b < j0 + (len + 1) from
            ⟨hai, by omega, by omega⟩),
          hbj]
      · rw [if_neg (show ¬(a = i ∧ b = j0) from fun hc => hbj hc.2)]
        by_cases hrange : j0 + 1 ≤ b ∧ b < j0 + 1 + len
        · rw [if_pos (show a = i ∧ j0 + 1 ≤ b ∧ b < j0 + 1 + len from
              ⟨hai, hrange.1, hrange.2⟩),
            if_pos (show a = i ∧ j0 ≤ b ∧ b < j0 + (len + 1) from
              ⟨hai, by omega, by omega⟩)]
        · rw [if_neg (show ¬(a = i ∧ j0 + 1 ≤ b ∧ b < j0 + 1 + len) from
              by rintro ⟨h1, h2, h3⟩; exact hrange ⟨h2, h3⟩),
            if_neg (show ¬(a = i ∧ j0 ≤ b ∧ b < j0 + (len + 1)) from
              by rintro ⟨h1, h2, h3⟩; exact hrange ⟨by omega, by omega⟩)]
    · rw [if_neg (show ¬(a = i ∧ j0 + 1 ≤ b ∧ b < j0 + 1 + len) from
          fun hc => hai hc.1),
        if_neg (show ¬(a = i ∧ b = j0) from fun hc => hai hc.1),
        if_neg (show ¬(a = i ∧ j0 ≤ b ∧ b < j0 + (len + 1)) from
          fun hc => hai hc.1)]

/-- The inner loop appends to the evaluation trace exactly the pairs (i, j)
for idx_two = j in range(j0, j0 + len), in order. -/
theorem pw_inner_trace {mu beta : Type} [Inhabited mu] (est : mu → mu → beta)
    (k_bucket : List (KMFull mu)) (i : Nat) :
    ∀ (len j0 : Nat) (st : (Nat → Nat → Option beta) × List (Nat × Nat)),
      (((List.range' j0 len).foldl (pw_inner_step est k_bucket i) st).2)
        = st.2 ++ (List.range' j0 len).map (fun j => (i, j)) := by
  intro len
  induction len with
  | zero =>
    intro j0 st
    rw [show List.range' j0 0 = [] from rfl]
    simp
  | succ len ih =>
    intro j0 st
    rw [List.range'_succ, List.foldl_cons, ih]
    simp [pw_inner_step]

/-- After the outer loop over idx_one in range(m) (for m at most the bucket
size), the array holds the metric value at every upper-triangle cell (a, b)
with a < m, a <= b < n, and is otherwise unchanged. -/
theorem pw_outer_mat {mu beta : Type} [Inhabited mu] (est : mu → mu → beta)
    (k_bucket : List (KMFull mu)) :
    ∀ (m : Nat), m ≤ k_bucket.length →
      ∀ (st : (Nat → Nat → Option beta) × List (Nat × Nat)) (a b : Nat),
        (((List.range m).foldl (pw_outer_step est k_bucket) st).1) a b
          = if a < m ∧ a ≤ b ∧ b < k_bucket.length
            then some (pw_eval est k_bucket a b)
            else st.1 a b := by
  intro m
  induction m with
  | zero =>
    intro hm st a b
    rw [show List.range 0 = [] from rfl, List.foldl_nil,
      if_neg (by rintro ⟨h1, h2, h3⟩; omega)]
  | succ m ih =>
    intro hm st a b
    rw [List.range_succ, List.foldl_append, List.foldl_cons, List.foldl_nil]
    rw [show pw_outer_step est k_bucket
          ((List.range m).foldl (pw_outer_step est k_bucket) st) m
        = (List.range' m (k_bucket.length - m)).foldl
            (pw_inner_step est k_bucket m)
            ((List.range m).foldl (pw_outer_step est k_bucket) st) from rfl]
    rw [pw_inner_mat est k_bucket m]
    rw [ih (by omega)]
    by_cases ham : a = m
    · by_cases hbr : m ≤ b ∧ b < k_bucket.length
      · rw [if_pos ⟨ham, hbr.1, by omega⟩,
          if_pos (show a < m + 1 ∧ a ≤ b ∧ b < k_bucket.length from
            ⟨by omega, by omega, hbr.2⟩),
          ham]
      · rw [if_neg (by rintro ⟨h1, h2, h3⟩; exact hbr ⟨h2, by omega⟩),
          if_neg (by rintro ⟨h1, h2, h3⟩; omega),
          if_neg (by rintro ⟨h1, h2, h3⟩; exact hbr ⟨by omega, h3⟩)]
    · rw [if_neg (fun hc => ham hc.1)]
      by_cases hb : a < m ∧ a ≤ b ∧ b < k_bucket.length
      · rw [if_pos hb,
          if_pos (show a < m + 1 ∧ a ≤ b ∧ b < k_bucket.length from
            ⟨by omega, hb.2.1, hb.2.2⟩)]
      · rw [if_neg hb,
          if_neg (by rintro ⟨h1, h2, h3⟩; exact hb ⟨by omega, h2, h3⟩)]

/-- The outer loop over range(m) appends to the evaluation trace exactly the
upper-triangle pairs of the first m rows, in evaluation order. -/
theorem pw_outer_trace {mu beta : Type} [Inhabited mu] (est : mu → mu → beta)
    (k_bucket : List (KMFull mu)) :
    ∀ (m : Nat) (st : (Nat → Nat → Option beta) × List (Nat × Nat)),
      (((List.range m).foldl (pw_outer_step est k_bucket) st).2)
        = st.2 ++ upper_pairs_aux k_bucket.length m := by
  intro m
  induction m with
  | zero =>
    intro st
    simp [upper_pairs_aux]
  | succ m ih =>
    intro st
    rw [List.range_succ, List.foldl_append, List.foldl_cons, List.foldl_nil]
    rw [show pw_outer_step est k_bucket
          ((List.range m).foldl (pw_outer_step est k_bucket) st) m
        = (List.range' m (k_bucket.length - m)).foldl
            (pw_inner_step est k_bucket m)
            ((List.range m).foldl (pw_outer_step est k_bucket) st) from rfl]
    rw [pw_inner_trace est k_bucket m, ih]
    simp [upper_pairs_aux, List.range_succ]

/-- The completed double loop holds the metric value at exactly the
upper-triangle cells (diagonal included) and nan elsewhere. -/
theorem pw_loop_mat {mu beta : Type} [Inhabited mu] (est : mu → mu → beta)
    (k_bucket : List (KMFull mu)) (a b : Nat) :
    (pw_loop est k_bucket).1 a b
      = if a < k_bucket.length ∧ a ≤ b ∧ b < k_bucket.length
        then some (pw_eval est k_bucket a b)
        else Option.none := by
  unfold pw_loop
  rw [pw_outer_mat est k_bucket k_bucket.length (Nat.le_refl _)]
  rfl

/-- The completed double loop evaluates the metric exactly once per
upper-triangle pair (diagonal included), in row-major order. -/
theorem pw_loop_trace {mu beta : Type} [Inhabited mu] (est : mu → mu → beta)
    (k_bucket : List (KMFull mu)) :
    (pw_loop est k_bucket).2 = upper_pairs k_bucket.length := by
  unfold pw_loop upper_pairs
  rw [pw_outer_trace est k_bucket]
  simp

/-- Mapping the successor over a list adds its length to the sum. -/
theorem sum_map_succ (l : List Nat) (f : Nat → Nat) :
    (l.map (fun i => f i + 1)).sum = (l.map f).sum + l.length := by
  induction l with
  | nil => simp
  | cons a l ih => simp [ih]; omega

/-- Twice the sum of the row lengths of the upper triangle. -/
theorem two_mul_sum_range_sub (n : Nat) :
    2 * ((List.range n).map (fun i => n - i)).sum = n * (n + 1) := by
  induction n with
  | zero => simp
  | succ n ih =>
    have hcongr : (List.range n).map (fun i => n + 1 - i)
        = (List.range n).map (fun i => (n - i) + 1) := by
      apply List.map_congr_left
      intro a ha
      have : a < n := List.mem_range.mp ha
      omega
    have hsplit : ((List.range (n + 1)).map (fun i => n + 1 - i)).sum
        = ((List.range n).map (fun i => n - i)).sum + n + 1 := by
      rw [List.range_succ, List.map_append, List.sum_append, hcongr,
        sum_map_succ, List.map_cons, List.map_nil, List.sum_cons,
        List.sum_nil, List.length_range]
      simp
    rw [hsplit]
    nlinarith [ih]

/-- The sum of the row lengths of the upper triangle is n(n+1)/2. -/
theorem sum_range_sub (n : Nat) :
    ((List.range n).map (fun i => n - i)).sum = n * (n + 1) / 2 := by
  have h := two_mul_sum_range_sub n
  generalize n * (n + 1) = m at h ⊢
  omega

/-- The number of upper-triangle pairs of an n-by-n matrix, diagonal
included, is n(n+1)/2. -/
theorem upper_pairs_length (n : Nat) :
    (upper_pairs n).length = n * (n + 1) / 2 := by
  have h1 : (upper_pairs n).length
      = ((List.range n).map (fun i => n - i)).sum := by
    rw [upper_pairs, upper_pairs_aux, List.length_flatten, List.map_map]
    congr 1
    apply List.map_congr_left
    intro a ha
    simp [Function.comp, List.length_range']
  rw [h1]
  exact sum_range_sub n

/-- The symmetrization step makes every cell agree with its transpose. -/
theorem mirror_lower_symm {beta : Type} (m : Nat → Nat → Option beta)
    (i j : Nat) : mirror_lower m i j = mirror_lower m j i := by
  unfold mirror_lower
  by_cases h1 : j ≤ i
  · by_cases h2 : i ≤ j
    · have hij : i = j := Nat.le_antisymm h2 h1
      rw [if_pos h1, if_pos h2, hij]
    · rw [if_pos h1, if_neg h2]
  · by_cases h2 : i ≤ j
    · rw [if_neg h1, if_pos h2]
    · omega

/-- Looking up the name corr in the metric dictionary yields the
correlation metric. -/
theorem metric_dict_corr {mu beta : Type} (corr align : mu → mu → beta) :
    metric_func_dict corr align "corr" = some corr := rfl

/-- Looking up the name align in the metric dictionary yields the
centered-alignment metric. -/
theorem metric_dict_align {mu beta : Type} (corr align : mu → mu → beta) :
    metric_func_dict corr align "align" = some align := by
  simp [metric_func_dict]

/-- Looking up any other name in the metric dictionary fails. -/
theorem metric_dict_other {mu beta : Type} (corr align : mu → mu → beta)
    (metric : String) (h1 : metric ≠ "corr") (h2 : metric ≠ "align") :
    metric_func_dict corr align metric = Option.none := by
  simp [metric_func_dict, h1, h2]

/-- A pairwise_similarity call whose metric lookup succeeds returns the
mirrored loop matrix and the loop evaluation trace. -/
theorem pairwise_ok_spec {mu beta : Type} [Inhabited mu]
    (corr align : mu → mu → beta) (k_bucket : List (KMFull mu))
    (metric : String) (est : mu → mu → beta)
    (hdict : metric_func_dict corr align metric = some est) :
    pairwise_similarity corr align k_bucket metric
      = (Except.ok (mirror_lower (pw_loop est k_bucket).1),
         (pw_loop est k_bucket).2) := by
  unfold pairwise_similarity
  rw [hdict]


/-- Claim C2: for every populated bucket and each of the two metric names
corr and align, the matrix returned by pairwise_similarity is symmetric at
all valid index pairs. -/
theorem c2_pairwise_similarity_symmetric {mu beta : Type} [Inhabited mu]
    (corr align : mu → mu → beta) (k_bucket : List (KMFull mu))
    (metric : String) (M : Nat → Nat → Option beta) (tr : List (Nat × Nat))
    (hmetric : metric = "corr" ∨ metric = "align")
    (hok : pairwise_similarity corr align k_bucket metric
      = (Except.ok M, tr)) :
    ∀ i j, i < k_bucket.length → j < k_bucket.length → M i j = M j i := by
  intro i j hi hj
  rcases hmetric with hm | hm
  · subst hm
    rw [pairwise_ok_spec corr align k_bucket "corr" corr
      (metric_dict_corr corr align)] at hok
    injection hok with hM htr
    have hM2 : M = mirror_lower (pw_loop corr k_bucket).1 :=
      (Except.ok.inj hM).symm
    rw [hM2]
    exact mirror_lower_symm (pw_loop corr k_bucket).1 i j
  · subst hm
    rw [pairwise_ok_spec corr align k_bucket "align" align
      (metric_dict_align corr align)] at hok
    injection hok with hM htr
    have hM2 : M = mirror_lower (pw_loop align k_bucket).1 :=
      (Except.ok.inj hM).symm
    rw [hM2]
    exact mirror_lower_symm (pw_loop align k_bucket).1 i j

/-- Witness for claim C2 at a concrete input: a two-entry bucket under the
corr metric, with a deliberately asymmetric metric function. -/
theorem c2_witness :
    ("corr" = "corr" ∨ "corr" = "align") ∧
    pairwise_similarity corr0 align0 pwbucket0 "corr" = (Except.ok M0, tr0) ∧
    M0 0 1 = M0 1 0 :=
  ⟨Or.inl rfl, rfl,
   c2_pairwise_similarity_symmetric corr0 align0 pwbucket0 "corr" M0 tr0
     (Or.inl rfl) rfl 0 1 (by decide) (by decide)⟩

/-- Claim C3: in pairwise_similarity over a bucket of n entries, every pair
(i, j) with i <= j < n, the diagonal included, gets
metric_func(bucket[i].full, bucket[j].full) at position (i, j); exactly the
upper-triangle pairs are evaluated directly, n(n+1)/2 metric evaluations in
all, and the lower triangle is filled by mirroring after the loop. -/
theorem c3_pairwise_similarity_upper_triangle {mu beta : Type} [Inhabited mu]
    (corr align : mu → mu → beta) (k_bucket : List (KMFull mu))
    (metric : String) (est : mu → mu → beta) (M : Nat → Nat → Option beta)
    (tr : List (Nat × Nat))
    (hdict : metric_func_dict corr align metric = some est)
    (hok : pairwise_similarity corr align k_bucket metric
      = (Except.ok M, tr)) :
    (∀ i j, i ≤ j → j < k_bucket.length →
      M i j = some (pw_eval est k_bucket i j)) ∧
    tr = upper_pairs k_bucket.length ∧
    tr.length = k_bucket.length * (k_bucket.length + 1) / 2 ∧
    (∀ i j, j < i → i < k_bucket.length → M i j = M j i) := by
  rw [pairwise_ok_spec corr align k_bucket metric est hdict] at hok
  injection hok with hM htr
  have hM2 : M = mirror_lower (pw_loop est k_bucket).1 :=
    (Except.ok.inj hM).symm
  subst hM2
  subst htr
  refine ⟨?_, ?_, ?_, ?_⟩
  · intro i j hij hj
    simp only [mirror_lower]
    by_cases hji : j ≤ i
    · have hii : i = j := by omega
      rw [if_pos hji, pw_loop_mat,
        if_pos (show j < k_bucket.length ∧ j ≤ i ∧ i < k_bucket.length from
          ⟨by omega, by omega, by omega⟩),
        hii]
    · rw [if_neg hji, pw_loop_mat,
        if_pos (show i < k_bucket.length ∧ i ≤ j ∧ j < k_bucket.length from
          ⟨by omega, hij, hj⟩)]
  · exact pw_loop_trace est k_bucket
  · rw [pw_loop_trace est k_bucket]
    exact upper_pairs_length k_bucket.length
  · intro i j hji hi
    exact mirror_lower_symm (pw_loop est k_bucket).1 i j

/-- Witness for claim C3 at a concrete input: the two-entry bucket under the
corr metric; the theorem is applied at the cell (0, 1), at the trace, and at
the mirrored cell (1, 0). -/
theorem c3_witness :
    metric_func_dict corr0 align0 "corr" = some corr0 ∧
    pairwise_similarity corr0 align0 pwbucket0 "corr" = (Except.ok M0, tr0) ∧
    M0 0 1 = some (pw_eval corr0 pwbucket0 0 1) ∧
    tr0 = upper_pairs pwbucket0.length ∧
    tr0.length = pwbucket0.length * (pwbucket0.length + 1) / 2 ∧
    M0 1 0 = M0 0 1 :=
  ⟨rfl, rfl,
   (c3_pairwise_similarity_upper_triangle corr0 align0 pwbucket0 "corr" corr0
      M0 tr0 rfl rfl).1 0 1 (by decide) (by decide),
   (c3_pairwise_similarity_upper_triangle corr0 align0 pwbucket0 "corr" corr0
      M0 tr0 rfl rfl).2.1,
   (c3_pairwise_similarity_upper_triangle corr0 align0 pwbucket0 "corr" corr0
      M0 tr0 rfl rfl).2.2.1,
   (c3_pairwise_similarity_upper_triangle corr0 align0 pwbucket0 "corr" corr0
      M0 tr0 rfl rfl).2.2.2 1 0 (by decide) (by decide)⟩

/-- Claim C7: for every bucket, calling pairwise_similarity with a metric
name other than corr or align fails with a KeyError (a Python LookupError),
performs zero metric evaluations (the trace is empty) and returns no
matrix; there is no silent default metric. -/
theorem c7_unrecognized_metric_lookup_error {mu beta : Type} [Inhabited mu]
    (corr align : mu → mu → beta) (k_bucket : List (KMFull mu))
    (metric : String) (h1 : metric ≠ "corr") (h2 : metric ≠ "align") :
    pairwise_similarity corr align k_bucket metric
      = (Except.error (PyError.keyError metric), []) := by
  unfold pairwise_similarity
  rw [metric_dict_other corr align metric h1 h2]

/-- Witness for claim C7 at a concrete input: the metric name mutual_info,
which the source mentions in a comment but does not implement. -/
theorem c7_witness :
    pairwise_similarity corr0 align0 pwbucket0 "mutual_info"
      = (Except.error (PyError.keyError "mutual_info"), []) :=
  c7_unrecognized_metric_lookup_error corr0 align0 pwbucket0 "mutual_info"
    (by decide) (by decide)

/-- Claim C8: make_kernel_bucket with the strategy name linear_only, matched
case-insensitively, passes all five family parameter iterables as None and
returns a bucket of size exactly 1 whose single entry is the linear
kernel. -/
theorem c8_linear_only_bucket_size_one (fails : KFunc → String → Int → Bool)
    (strategy : String) (nk sic : Bool)
    (h : py_lower strategy = "linear_only") :
    make_kernel_bucket fails strategy nk sic
      = Except.ok
          ({ name := "KBucketLight", km_list := [linear_seed_entry nk],
             norm_kernels := nk, skip_input_checks := sic }, []) ∧
    ([linear_seed_entry nk] : List KMEntry).length = 1 ∧
    (linear_seed_entry nk).kfunc = KFunc.LinearKernel := by
  refine ⟨?_, rfl, rfl⟩
  unfold make_kernel_bucket
  rw [h]
  rw [if_neg (by decide), if_neg (by decide), if_pos rfl]
  rfl

/-- Witness for claim C8 at a concrete input: the mixed-case strategy name
Linear_Only. -/
theorem c8_witness :
    py_lower "Linear_Only" = "linear_only" ∧
    make_kernel_bucket fails0 "Linear_Only" true false
      = Except.ok
          ({ name := "KBucketLight", km_list := [linear_seed_entry true],
             norm_kernels := true, skip_input_checks := false }, []) ∧
    ([linear_seed_entry true] : List KMEntry).length = 1 ∧
    (linear_seed_entry true).kfunc = KFunc.LinearKernel :=
  ⟨by decide,
   (c8_linear_only_bucket_size_one fails0 "Linear_Only" true false
      (by decide)).1,
   (c8_linear_only_bucket_size_one fails0 "Linear_Only" true false
      (by decide)).2.1,
   (c8_linear_only_bucket_size_one fails0 "Linear_Only" true false
      (by decide)).2.2⟩

/-- Claim C9: for every one-dimensional sequence of m target values,
ideal_kernel returns the m-by-m outer product of the targets with
themselves, with no side effects, and in particular maps the labels
1, -1, 1 to the stated 3-by-3 matrix. -/
theorem c9_ideal_kernel_outer_product :
    (∀ (targets : List Int) (i j : Nat),
      i < targets.length → j < targets.length →
      ((ideal_kernel targets).getD i []).getD j 0
        = targets.getD i 0 * targets.getD j 0) ∧
    ideal_kernel [1, -1, 1] = [[1, -1, 1], [-1, 1, -1], [1, -1, 1]] := by
  constructor
  · intro ts i j hi hj
    simp [ideal_kernel, List.getD_eq_getElem?_getD, List.getElem?_map,
      List.getElem?_eq_getElem, hi, hj]
  · rfl

/-- Witness for claim C9 at a concrete input: the cell (0, 1) of the outer
product of the labels 1, -1, 1, and the full concrete matrix. -/
theorem c9_witness :
    (0 : Nat) < ([1, -1, 1] : List Int).length ∧
    (1 : Nat) < ([1, -1, 1] : List Int).length ∧
    ((ideal_kernel [1, -1, 1]).getD 0 []).getD 1 0
      = ([1, -1, 1] : List Int).getD 0 0 * ([1, -1, 1] : List Int).getD 1 0 ∧
    ideal_kernel [1, -1, 1] = [[1, -1, 1], [-1, 1, -1], [1, -1, 1]] :=
  ⟨by decide, by decide,
   c9_ideal_kernel_outer_product.1 [1, -1, 1] 0 1 (by decide) (by decide),
   c9_ideal_kernel_outer_product.2⟩
